import Mathlib

/-!
Verification of the recommendation Azure Function
(src/azure_function/recommendation-function/function_app.py) against its
natural-language specification.

Shallow embedding conventions:
* Inner (training-time) user/item indices and raw item identifiers are `Nat`.
* The value bound to the Python variable `user_id` may be a string (query
  parameter), an integer (after a successful `int(...)` coercion or straight
  from the JSON body) or Python `None`; it is embedded as `PyUserVal`.
* Predicted affinity estimates (`model.predict(u, i).est`) are real-valued;
  they are embedded as `Rat`, which carries the same decidable linear order.
* Python raises are embedded as `Except`/`Option`.
* The final `str(item_id)` rendering of the integer item identifiers in
  `generate_recommendations` is an injective formatting step; the embedding
  keeps the identifiers themselves, so properties about item identity,
  duplicates and ordering are unchanged.
* Python's `list.sort` / `sorted` with a key and `reverse=True` is a stable
  sort placing larger keys first; it is embedded as `List.mergeSort` with the
  comparison `b.key ≤ a.key` (true on ties, hence stable).
-/

/-- A Python value that may sit in the `user_id` variable: a string, an
integer, or `None`. -/
inductive PyUserVal where
  | vstr (s : String)
  | vint (n : Int)
  | vnone
deriving DecidableEq, Repr

/-- Python truthiness (`if not user_id`) for the values `user_id` can take:
`None` and `0` and the empty string are falsy. -/
def pyTruthy : PyUserVal → Bool
  | .vstr s => !(s == "")
  | .vint n => !(n == 0)
  | .vnone => false

/-- ASCII whitespace, for the stripping `int(...)` performs. -/
def pyIsSpace (c : Char) : Bool :=
  c == ' ' || c == '\t' || c == '\n' || c == '\r'

/-- Python `int(s)` on a string: optional surrounding whitespace, an optional
sign, then at least one digit (digit-group underscores and non-ASCII digits
are not modelled). `none` embeds the `ValueError` raise. Implemented over the
character list so that it evaluates by reduction. -/
def pyIntOfString (s : String) : Option Int :=
  let trimmed := (((s.toList.dropWhile pyIsSpace).reverse.dropWhile pyIsSpace).reverse)
  let (sign, digits) :=
    match trimmed with
    | '-' :: rest => ((-1 : Int), rest)
    | '+' :: rest => ((1 : Int), rest)
    | _ => ((1 : Int), trimmed)
  if digits.length > 0 && digits.all Char.isDigit then
    some (sign * Int.ofNat
      (digits.foldl (fun acc c => 10 * acc + (c.toNat - '0'.toNat)) 0))
  else
    none

/-- The surprise `Trainset` interface used by `generate_recommendations`:
`all_items` is the native inner-item enumeration (in order), `to_raw_iid`
translates inner to raw item ids, `to_inner_uid` translates a raw user id to
its inner id (`none` embeds the `ValueError` raise for unknown users),
`ur`/`ir` are the user- and item-interaction lists of `(other, rating)`
pairs. -/
structure Trainset where
  all_items : List Nat
  to_raw_iid : Nat → Nat
  to_inner_uid : PyUserVal → Option Nat
  ur : Nat → List (Nat × Rat)
  ir : Nat → List (Nat × Rat)

/-- The loaded SVD model: a trainset plus the scoring operation
`predict(user_id, item_id).est`. -/
structure Model where
  trainset : Trainset
  predict : PyUserVal → Nat → Rat

/-- Line 105: `seen_items = set([trainset.to_raw_iid(inner_id) for
(inner_id, _) in trainset.ur[user_inner_id]])`, as a list used through
membership only. -/
def seen_items (t : Trainset) (user_inner_id : Nat) : List Nat :=
  (t.ur user_inner_id).map (fun p => t.to_raw_iid p.1)

/-- Lines 113-116: the candidate pool of the known-user branch — all items,
minus (when `exclude_seen`) the raw ids the user has interacted with. -/
def candidate_items (t : Trainset) (user_inner_id : Nat) (exclude_seen : Bool) :
    List Nat :=
  if exclude_seen then
    (t.all_items.filter
      (fun inner_id => !((seen_items t user_inner_id).contains (t.to_raw_iid inner_id)))).map
      t.to_raw_iid
  else
    t.all_items.map t.to_raw_iid

/-- Line 119: score every candidate with the model. -/
def predictions (m : Model) (user_id : PyUserVal) (user_inner_id : Nat)
    (exclude_seen : Bool) : List (Nat × Rat) :=
  (candidate_items m.trainset user_inner_id exclude_seen).map
    (fun item_id => (item_id, m.predict user_id item_id))

/-- Descending comparison on the second (rational score) component;
ties compare true, so a stable sort keeps their original order. -/
def descRat (a b : Nat × Rat) : Bool :=
  decide (b.2 ≤ a.2)

/-- Descending comparison on the second (natural popularity) component;
ties compare true, so a stable sort keeps their original order. -/
def descNat (a b : Nat × Nat) : Bool :=
  decide (b.2 ≤ a.2)

/-- Line 122: `predictions.sort(key=lambda x: x[1], reverse=True)` — a stable
descending sort of the scored candidates. -/
def ranked_known (m : Model) (user_id : PyUserVal) (user_inner_id : Nat)
    (exclude_seen : Bool) : List (Nat × Rat) :=
  (predictions m user_id user_inner_id exclude_seen).mergeSort descRat

/-- One step of building a Python dict as an insertion-ordered association
list: overwriting an existing key keeps its position, a new key is appended. -/
def dictInsert (d : List (Nat × Nat)) (k v : Nat) : List (Nat × Nat) :=
  if d.any (fun p => p.1 == k) then
    d.map (fun p => if p.1 == k then (k, v) else p)
  else
    d ++ [(k, v)]

/-- Lines 126-129: `item_popularity = {to_raw_iid(inner_id): len(ir[inner_id])
for inner_id in all_items}` — a dict from raw item id to interaction count,
keys in first-insertion (enumeration) order. -/
def item_popularity (t : Trainset) : List (Nat × Nat) :=
  t.all_items.foldl (fun d inner_id => dictInsert d (t.to_raw_iid inner_id) (t.ir inner_id).length) []

/-- Line 130: `sorted(item_popularity.items(), key=lambda x: x[1],
reverse=True)` — a stable descending sort of the popularity pairs. -/
def most_popular (t : Trainset) : List (Nat × Nat) :=
  (item_popularity t).mergeSort descNat

/-- Lines 84-133: `generate_recommendations(model, user_id,
num_recommendations, exclude_seen)`. Returns the recommended raw item ids and
the user-known flag. The `try: to_inner_uid ... except ValueError` dispatch is
the `match` on `to_inner_uid`. -/
def generate_recommendations (m : Model) (user_id : PyUserVal)
    (num_recommendations : Nat) (exclude_seen : Bool) : List Nat × Bool :=
  match m.trainset.to_inner_uid user_id with
  | some user_inner_id =>
      (((ranked_known m user_id user_inner_id exclude_seen).take
          num_recommendations).map Prod.fst, true)
  | none =>
      (((most_popular m.trainset).take num_recommendations).map Prod.fst, false)

/-- The parsed JSON body (a nonempty dict). A missing `user_id` key and a
JSON `null` both make `req_body.get('user_id')` return `None`, embedded as
`PyUserVal.vnone`. `num_recommendations` and `exclude_seen` are `none` when
the key is absent. -/
structure ReqBody where
  user_id : PyUserVal
  num_recommendations : Option Int
  exclude_seen : Option Bool
deriving DecidableEq, Repr

/-- Outcome of `req.get_json()` plus the `if req_body:` truthiness test:
`invalid` embeds the `ValueError` raise, `falsy` an empty dict (or other falsy
parse), `obj` a nonempty dict. -/
inductive BodyResult where
  | invalid
  | falsy
  | obj (b : ReqBody)
deriving DecidableEq, Repr

/-- An HTTP request as `extract_request_params` consumes it: the three query
parameters (`none` = absent) and the JSON body. -/
structure HttpRequest where
  param_user_id : Option String
  param_num_recommendations : Option String
  param_exclude_seen : Option String
  body : BodyResult
deriving DecidableEq, Repr

/-- Python's `str.lower()` (ASCII case folding suffices for the literals
compared here). Implemented over the character list so that it evaluates by
reduction. -/
def pyLower (s : String) : String :=
  String.mk (s.toList.map Char.toLower)

/-- The `user_id = req.params.get('user_id')` value as a Python value. -/
def queryUserVal (req : HttpRequest) : PyUserVal :=
  match req.param_user_id with
  | some s => .vstr s
  | none => .vnone

/-- True iff line 154's `if not user_id:` falls through to the body AND the
body is a nonempty dict, i.e. the JSON body actually supplies the params. -/
def bodyConsulted (req : HttpRequest) : Bool :=
  !(pyTruthy (queryUserVal req)) &&
    (match req.body with
     | .obj _ => true
     | _ => false)

/-- Lines 164-168: the `try: user_id = int(user_id) except (TypeError,
ValueError): pass` coercion attempt. -/
def intCoerce : PyUserVal → PyUserVal
  | .vstr s =>
      match pyIntOfString s with
      | some n => .vint n
      | none => .vstr s
  | v => v

/-- Lines 136-172: `extract_request_params(req)`. `Except.error` embeds an
uncaught raise (the `int(...)` on a non-numeric `num_recommendations` query
value); the error string stands for the `ValueError` message. -/
def extract_request_params (req : HttpRequest) :
    Except String (PyUserVal × Int × Bool) := do
  let user_id0 := queryUserVal req
  let num0 : Int ←
    match req.param_num_recommendations with
    | some s =>
        match pyIntOfString s with
        | some n => pure n
        | none => Except.error ("invalid literal for int(): " ++ s)
    | none => pure 10
  let exclude0 := (pyLower (req.param_exclude_seen.getD "true") == "true")
  let (user_id1, num1, exclude1) :=
    if pyTruthy user_id0 then
      (user_id0, num0, exclude0)
    else
      match req.body with
      | .obj b => (b.user_id, b.num_recommendations.getD 10, b.exclude_seen.getD true)
      | _ => (user_id0, num0, exclude0)
  let user_id2 := intCoerce user_id1
  pure (user_id2, max 1 (min num1 100), exclude1)

/-- The JSON payload of a response: the standardized error object of
`create_error_response`, the success object of `recommendation_function`, or
the health object of `health_check`. -/
inductive RespBody where
  | err (error message status : String)
  | ok (user_id : PyUserVal) (user_known_msg : String) (count : Nat)
      (items : List Nat)
  | health (status message architecture : String)
deriving DecidableEq, Repr

/-- An HTTP response: status code plus JSON payload. -/
structure HttpResponse where
  status_code : Nat
  body : RespBody
deriving DecidableEq, Repr

/-- Lines 175-195: `create_error_response(error, message, status_code)` —
the JSON object always carries `status: "error"`. -/
def create_error_response (error message : String) (status_code : Nat) :
    HttpResponse :=
  { status_code := status_code, body := .err error message "error" }

/-- Lines 40-80: `recommendation_function(req)` given the process-wide
`MODEL` (`none` embeds a failed startup load). The surrounding
`try ... except` turns the raise from `extract_request_params` into the
internal 500 response. -/
def recommendation_function (model : Option Model) (req : HttpRequest) :
    HttpResponse :=
  match model with
  | none =>
      create_error_response "Modele non charge"
        "Le modele n'a pas pu etre initialise au demarrage" 500
  | some m =>
      match extract_request_params req with
      | .error e =>
          create_error_response "Erreur interne du moteur de recommandation" e 500
      | .ok (user_id, num_recommendations, exclude_seen) =>
          if !(pyTruthy user_id) then
            create_error_response "user_id manquant" "Veuillez fournir un user_id" 400
          else
            let res := generate_recommendations m user_id num_recommendations.toNat exclude_seen
            { status_code := 200,
              body := .ok user_id (if res.2 then "Oui" else "Non") res.1.length res.1 }

/-- Lines 200-220: `health_check(req)` — a constant healthy response, the
process-wide model is not read. -/
def health_check (_req : HttpRequest) : HttpResponse :=
  { status_code := 200,
    body := .health "healthy" "Recommendation service is running"
      "Azure Function + Blob Storage Input Binding" }

/-- The two routes the function app registers. -/
inductive Route where
  | recommendations
  | health
deriving DecidableEq, Repr

/-- The app's dispatch: `/recommendations` runs `recommendation_function`
against the process-wide model, `/health` runs `health_check`. -/
def app_route (model : Option Model) (route : Route) (req : HttpRequest) :
    HttpResponse :=
  match route with
  | .recommendations => recommendation_function model req
  | .health => health_check req

/-- The pool of items eligible for ranking in a request: the (possibly
seen-filtered) candidate list for a known user, the popularity dict's keys
for an unknown one. -/
def eligible_pool (m : Model) (user_id : PyUserVal) (exclude_seen : Bool) :
    List Nat :=
  match m.trainset.to_inner_uid user_id with
  | some user_inner_id => candidate_items m.trainset user_inner_id exclude_seen
  | none => (item_popularity m.trainset).map Prod.fst

/-!
A concrete model, following the concrete scenarios of the specification
(users 1 and 2 known, three items with raw ids 10, 11, 12; user 1 has seen
item 10; predict(1, 11) = 0.9, predict(1, 12) = 0.4).
Used by the witness and counterexample theorems.
-/

/-- A small concrete trainset used by witnesses and counterexamples. -/
def tsTest : Trainset where
  all_items := [0, 1, 2]
  to_raw_iid := fun i => i + 10
  to_inner_uid := fun u =>
    match u with
    | .vint 1 => some 0
    | .vint 2 => some 1
    | _ => none
  ur := fun iu => if iu = 0 then [(0, 1)] else if iu = 1 then [(1, 1)] else []
  ir := fun ii =>
    if ii = 0 then [(0, 1)] else if ii = 1 then [(1, 1), (0, 1)] else []

/-- A small concrete model over `tsTest` used by witnesses and
counterexamples. -/
def mTest : Model where
  trainset := tsTest
  predict := fun u i =>
    if u = .vint 1 then
      (if i = 11 then (9 : Rat)/10 else if i = 12 then (4 : Rat)/10 else (1 : Rat)/10)
    else 0

/-!  Facts about the two descending comparisons.  -/

/-- The descending score comparison is transitive. -/
theorem descRat_trans : ∀ (a b c : Nat × Rat), descRat a b → descRat b c → descRat a c := by
  intro a b c hab hbc
  simp only [descRat, decide_eq_true_eq] at *
  exact le_trans hbc hab

/-- The descending score comparison is total. -/
theorem descRat_total : ∀ (a b : Nat × Rat), descRat a b || descRat b a := by
  intro a b
  simp only [descRat, Bool.or_eq_true, decide_eq_true_eq]
  exact (le_total b.2 a.2)

/-- The descending popularity comparison is transitive. -/
theorem descNat_trans : ∀ (a b c : Nat × Nat), descNat a b → descNat b c → descNat a c := by
  intro a b c hab hbc
  simp only [descNat, decide_eq_true_eq] at *
  exact le_trans hbc hab

/-- The descending popularity comparison is total. -/
theorem descNat_total : ∀ (a b : Nat × Nat), descNat a b || descNat b a := by
  intro a b
  simp only [descNat, Bool.or_eq_true, decide_eq_true_eq]
  exact (le_total b.2 a.2)

/-- The personalized ranking is a permutation of the scored candidates. -/
theorem ranked_known_perm (m : Model) (u : PyUserVal) (iu : Nat) (e : Bool) :
    (ranked_known m u iu e).Perm (predictions m u iu e) :=
  List.mergeSort_perm _ _

/-- The personalized ranking is sorted by score, descending. -/
theorem ranked_known_pairwise (m : Model) (u : PyUserVal) (iu : Nat) (e : Bool) :
    (ranked_known m u iu e).Pairwise (fun a b => b.2 ≤ a.2) := by
  have h := List.sorted_mergeSort descRat_trans descRat_total (predictions m u iu e)
  exact h.imp (fun hab => by simpa [descRat] using hab)

/-- The popularity ranking is a permutation of the popularity dict. -/
theorem most_popular_perm (t : Trainset) :
    (most_popular t).Perm (item_popularity t) :=
  List.mergeSort_perm _ _

/-- The popularity ranking is sorted by popularity, descending. -/
theorem most_popular_pairwise (t : Trainset) :
    (most_popular t).Pairwise (fun a b => b.2 ≤ a.2) := by
  have h := List.sorted_mergeSort descNat_trans descNat_total (item_popularity t)
  exact h.imp (fun hab => by simpa [descNat] using hab)

/-- In a pairwise-related list, every element of a `take` relates to every
element of the corresponding `drop`. -/
theorem pairwise_take_drop {α : Type} {R : α → α → Prop} {l : List α}
    (h : l.Pairwise R) (n : Nat) :
    ∀ x ∈ l.take n, ∀ y ∈ l.drop n, R x y := by
  have h2 : (l.take n ++ l.drop n).Pairwise R := by rwa [List.take_append_drop]
  exact (List.pairwise_append.mp h2).2.2

/-!  Facts about the Python-dict embedding.  -/

/-- The `any`-based key test of `dictInsert` agrees with key membership. -/
theorem dict_any_eq_mem (d : List (Nat × Nat)) (k : Nat) :
    d.any (fun p => p.1 == k) = true ↔ k ∈ d.map Prod.fst := by
  simp only [List.any_eq_true, List.mem_map, beq_iff_eq]

/-- Keys of a dict after insertion: unchanged on overwrite, the new key
appended otherwise. -/
theorem dictInsert_keys (d : List (Nat × Nat)) (k v : Nat) :
    (dictInsert d k v).map Prod.fst =
      if k ∈ d.map Prod.fst then d.map Prod.fst else d.map Prod.fst ++ [k] := by
  unfold dictInsert
  by_cases h : k ∈ d.map Prod.fst
  · rw [if_pos ((dict_any_eq_mem d k).mpr h), if_pos h, List.map_map]
    apply List.map_congr_left
    intro p _
    by_cases hp : p.1 == k
    · simp only [Function.comp, hp, if_pos]
      exact (beq_iff_eq.mp hp).symm
    · simp [Function.comp, hp]
  · have hany : ¬(d.any (fun p => p.1 == k) = true) := by
      intro hc
      exact h ((dict_any_eq_mem d k).mp hc)
    rw [if_neg hany, if_neg h]
    simp

/-- The inserted key is a key of the result. -/
theorem dictInsert_key_mem (d : List (Nat × Nat)) (k v : Nat) :
    k ∈ (dictInsert d k v).map Prod.fst := by
  rw [dictInsert_keys]
  by_cases h : k ∈ d.map Prod.fst
  · rwa [if_pos h]
  · rw [if_neg h]
    exact List.mem_append.mpr (Or.inr (List.mem_singleton.mpr rfl))

/-- Insertion preserves existing keys. -/
theorem dictInsert_key_mono {d : List (Nat × Nat)} {k' : Nat} (k v : Nat)
    (h : k' ∈ d.map Prod.fst) : k' ∈ (dictInsert d k v).map Prod.fst := by
  rw [dictInsert_keys]
  by_cases hk : k ∈ d.map Prod.fst
  · rwa [if_pos hk]
  · rw [if_neg hk]
    exact List.mem_append.mpr (Or.inl h)

/-- Insertion preserves distinctness of keys. -/
theorem dictInsert_keys_nodup {d : List (Nat × Nat)} {k v : Nat}
    (h : (d.map Prod.fst).Nodup) : ((dictInsert d k v).map Prod.fst).Nodup := by
  rw [dictInsert_keys]
  by_cases hk : k ∈ d.map Prod.fst
  · rwa [if_pos hk]
  · rw [if_neg hk]
    rw [List.nodup_append]
    refine ⟨h, List.nodup_singleton k, ?_⟩
    intro a ha hb
    rw [List.mem_singleton.mp hb] at ha
    exact hk ha

/-- Every pair of a dict after insertion is an old pair or the new one. -/
theorem dictInsert_forall {P : Nat × Nat → Prop} {d : List (Nat × Nat)} {k v : Nat}
    (hd : ∀ p ∈ d, P p) (hkv : P (k, v)) : ∀ p ∈ dictInsert d k v, P p := by
  intro p hp
  unfold dictInsert at hp
  split at hp
  · obtain ⟨q, hq, rfl⟩ := List.mem_map.mp hp
    by_cases h : q.1 == k
    · simpa [h] using hkv
    · simpa [h] using hd q hq
  · rcases List.mem_append.mp hp with h | h
    · exact hd p h
    · rw [List.mem_singleton.mp h]
      exact hkv

/-- Insertion grows a dict by at most one entry. -/
theorem dictInsert_length (d : List (Nat × Nat)) (k v : Nat) :
    (dictInsert d k v).length ≤ d.length + 1 := by
  unfold dictInsert
  split
  · simp
  · simp

/-- The step function of the `item_popularity` fold. -/
def popStep (t : Trainset) (d : List (Nat × Nat)) (inner_id : Nat) : List (Nat × Nat) :=
  dictInsert d (t.to_raw_iid inner_id) (t.ir inner_id).length

/-- The popularity fold preserves distinctness of keys. -/
theorem popFold_keys_nodup (t : Trainset) :
    ∀ (l : List Nat) (d : List (Nat × Nat)), (d.map Prod.fst).Nodup →
      ((l.foldl (popStep t) d).map Prod.fst).Nodup := by
  intro l
  induction l with
  | nil => intro d hd; exact hd
  | cons i l ih =>
      intro d hd
      exact ih (popStep t d i) (dictInsert_keys_nodup hd)

/-- The popularity fold preserves existing keys. -/
theorem popFold_keys_mono (t : Trainset) :
    ∀ (l : List Nat) (d : List (Nat × Nat)) (k : Nat), k ∈ d.map Prod.fst →
      k ∈ (l.foldl (popStep t) d).map Prod.fst := by
  intro l
  induction l with
  | nil => intro d k hk; exact hk
  | cons i l ih =>
      intro d k hk
      exact ih (popStep t d i) k (dictInsert_key_mono _ _ hk)

/-- Every enumerated item's raw id is a key of the popularity fold. -/
theorem popFold_keys_mem (t : Trainset) :
    ∀ (l : List Nat) (d : List (Nat × Nat)) (i : Nat), i ∈ l →
      t.to_raw_iid i ∈ (l.foldl (popStep t) d).map Prod.fst := by
  intro l
  induction l with
  | nil => intro d i hi; cases hi
  | cons j l ih =>
      intro d i hi
      rcases List.mem_cons.mp hi with h | h
      · subst h
        exact popFold_keys_mono t l (popStep t d i) _ (dictInsert_key_mem _ _ _)
      · exact ih (popStep t d j) i h

/-- Every pair produced by the popularity fold satisfies any predicate that
the initial pairs and all inserted `(raw id, interaction count)` pairs
satisfy. -/
theorem popFold_forall (t : Trainset) {P : Nat × Nat → Prop} :
    ∀ (l : List Nat) (d : List (Nat × Nat)), (∀ p ∈ d, P p) →
      (∀ i ∈ l, P (t.to_raw_iid i, (t.ir i).length)) →
      ∀ p ∈ l.foldl (popStep t) d, P p := by
  intro l
  induction l with
  | nil => intro d hd _ p hp; exact hd p hp
  | cons i l ih =>
      intro d hd hl p hp
      refine ih (popStep t d i) ?_ (fun j hj => hl j (List.mem_cons_of_mem i hj)) p hp
      exact dictInsert_forall hd (hl i (List.mem_cons_self i l))

/-- The popularity fold grows the dict by at most one entry per item. -/
theorem popFold_length (t : Trainset) :
    ∀ (l : List Nat) (d : List (Nat × Nat)),
      (l.foldl (popStep t) d).length ≤ d.length + l.length := by
  intro l
  induction l with
  | nil => intro d; simp
  | cons i l ih =>
      intro d
      calc (List.foldl (popStep t) (popStep t d i) l).length
          ≤ (popStep t d i).length + l.length := ih (popStep t d i)
        _ ≤ (d.length + 1) + l.length :=
            Nat.add_le_add_right (dictInsert_length d _ _) l.length
        _ = d.length + (i :: l).length := by simp [Nat.add_assoc, Nat.add_comm 1]

/-- The popularity dict has distinct keys. -/
theorem item_popularity_keys_nodup (t : Trainset) :
    ((item_popularity t).map Prod.fst).Nodup :=
  popFold_keys_nodup t t.all_items [] (by simp)

/-- Every pair of the popularity dict is `(to_raw_iid i, len (ir i))` for
some enumerated inner item `i`. -/
theorem item_popularity_pairs (t : Trainset) :
    ∀ p ∈ item_popularity t, ∃ i ∈ t.all_items,
      t.to_raw_iid i = p.1 ∧ p.2 = (t.ir i).length := by
  refine popFold_forall t t.all_items [] (by simp) ?_
  intro i hi
  exact ⟨i, hi, rfl, rfl⟩

/-- Every enumerated item's raw id is a key of the popularity dict. -/
theorem item_popularity_keys_mem (t : Trainset) {i : Nat} (hi : i ∈ t.all_items) :
    t.to_raw_iid i ∈ (item_popularity t).map Prod.fst :=
  popFold_keys_mem t t.all_items [] i hi

/-- The popularity dict has at most one entry per enumerated item. -/
theorem item_popularity_length (t : Trainset) :
    (item_popularity t).length ≤ t.all_items.length := by
  have h := popFold_length t t.all_items []
  simpa using h

/-!  Facts about the known-user candidate pool.  -/

/-- Dropping the scores from the scored candidates gives back the candidate
pool. -/
theorem map_fst_predictions (m : Model) (u : PyUserVal) (iu : Nat) (e : Bool) :
    (predictions m u iu e).map Prod.fst = candidate_items m.trainset iu e := by
  rw [predictions, List.map_map]
  exact List.map_id _ ▸ rfl

/-- Every scored candidate carries its model score. -/
theorem predictions_snd {m : Model} {u : PyUserVal} {iu : Nat} {e : Bool}
    {p : Nat × Rat} (hp : p ∈ predictions m u iu e) :
    p.2 = m.predict u p.1 := by
  obtain ⟨i, _, rfl⟩ := List.mem_map.mp hp
  rfl

/-- With `exclude_seen = true`, no candidate is a seen item. -/
theorem candidate_not_seen {t : Trainset} {iu : Nat} {r : Nat}
    (hr : r ∈ candidate_items t iu true) : r ∉ seen_items t iu := by
  unfold candidate_items at hr
  rw [if_pos rfl] at hr
  obtain ⟨i, hi, rfl⟩ := List.mem_map.mp hr
  have := (List.mem_filter.mp hi).2
  simpa using this

/-- The candidate pool consists of translated enumerated items. -/
theorem candidate_items_sub {t : Trainset} {iu : Nat} {e : Bool} {r : Nat}
    (hr : r ∈ candidate_items t iu e) :
    ∃ i ∈ t.all_items, t.to_raw_iid i = r := by
  unfold candidate_items at hr
  split at hr
  · obtain ⟨i, hi, rfl⟩ := List.mem_map.mp hr
    exact ⟨i, (List.mem_filter.mp hi).1, rfl⟩
  · obtain ⟨i, hi, rfl⟩ := List.mem_map.mp hr
    exact ⟨i, hi, rfl⟩

/-- Under distinct enumeration and injective translation, the candidate pool
has no duplicates. -/
theorem candidate_items_nodup {t : Trainset} (iu : Nat) (e : Bool)
    (hnd : t.all_items.Nodup)
    (hinj : ∀ i ∈ t.all_items, ∀ j ∈ t.all_items,
      t.to_raw_iid i = t.to_raw_iid j → i = j) :
    (candidate_items t iu e).Nodup := by
  unfold candidate_items
  split
  · refine List.Nodup.map_on ?_ (hnd.filter _)
    intro x hx y hy hxy
    exact hinj x (List.mem_of_mem_filter hx) y (List.mem_of_mem_filter hy) hxy
  · exact List.Nodup.map_on hinj hnd

/-- C1: for a known user with `exclude_seen = true`, the returned items are
disjoint from the user's seen-set; and when the unseen candidate pool has
fewer than `count` items, exactly the unseen pool is returned, sorted by
predicted score descending (never backfilled with seen items). -/
theorem C1_exclude_seen_policy (m : Model) (user_id : PyUserVal) (n iu : Nat)
    (hk : m.trainset.to_inner_uid user_id = some iu) :
    (∀ r ∈ (generate_recommendations m user_id n true).1, r ∉ seen_items m.trainset iu)
    ∧ ((candidate_items m.trainset iu true).length < n →
        (generate_recommendations m user_id n true).1.Perm
          (candidate_items m.trainset iu true)
        ∧ (generate_recommendations m user_id n true).1.Pairwise
            (fun a b => m.predict user_id b ≤ m.predict user_id a)) := by
  have hgen : (generate_recommendations m user_id n true).1
      = ((ranked_known m user_id iu true).take n).map Prod.fst := by
    simp [generate_recommendations, hk]
  constructor
  · intro r hr
    rw [hgen] at hr
    obtain ⟨p, hp, rfl⟩ := List.mem_map.mp hr
    have hp2 : p ∈ ranked_known m user_id iu true := List.mem_of_mem_take hp
    have hp3 : p ∈ predictions m user_id iu true :=
      (ranked_known_perm m user_id iu true).mem_iff.mp hp2
    have hp4 : p.1 ∈ (predictions m user_id iu true).map Prod.fst :=
      List.mem_map_of_mem Prod.fst hp3
    rw [map_fst_predictions] at hp4
    exact candidate_not_seen hp4
  · intro hlt
    have hlen : (ranked_known m user_id iu true).length
        = (candidate_items m.trainset iu true).length := by
      rw [(ranked_known_perm m user_id iu true).length_eq]
      simp [predictions]
    have htake : (ranked_known m user_id iu true).take n
        = ranked_known m user_id iu true :=
      List.take_of_length_le (by omega)
    constructor
    · rw [hgen, htake]
      have hperm := (ranked_known_perm m user_id iu true).map Prod.fst
      rwa [map_fst_predictions] at hperm
    · rw [hgen, htake, List.pairwise_map]
      refine (ranked_known_pairwise m user_id iu true).imp_of_mem ?_
      intro a b ha hb hle
      have ha2 := predictions_snd ((ranked_known_perm m user_id iu true).mem_iff.mp ha)
      have hb2 := predictions_snd ((ranked_known_perm m user_id iu true).mem_iff.mp hb)
      rw [ha2, hb2] at hle
      exact hle

/-- Witness for C1 at the concrete model: user 1, count 5 (the unseen pool
has 2 items). -/
theorem C1_exclude_seen_policy_witness :
    (∀ r ∈ (generate_recommendations mTest (.vint 1) 5 true).1,
        r ∉ seen_items mTest.trainset 0)
    ∧ ((candidate_items mTest.trainset 0 true).length < 5 →
        (generate_recommendations mTest (.vint 1) 5 true).1.Perm
          (candidate_items mTest.trainset 0 true)
        ∧ (generate_recommendations mTest (.vint 1) 5 true).1.Pairwise
            (fun a b => mTest.predict (.vint 1) b ≤ mTest.predict (.vint 1) a)) :=
  C1_exclude_seen_policy mTest (.vint 1) 5 0 rfl

/-- C2: for an unknown user, `user_known = false`, the result does not depend
on `exclude_seen`, and the returned items are the `count` items of highest
training interaction-count (assuming the raw/inner item translation is
injective, as in a surprise trainset). -/
theorem C2_unknown_user_popularity (m : Model) (user_id : PyUserVal) (n : Nat)
    (hu : m.trainset.to_inner_uid user_id = none)
    (hinj : ∀ i ∈ m.trainset.all_items, ∀ j ∈ m.trainset.all_items,
      m.trainset.to_raw_iid i = m.trainset.to_raw_iid j → i = j) :
    (generate_recommendations m user_id n true).2 = false
    ∧ generate_recommendations m user_id n true
        = generate_recommendations m user_id n false
    ∧ (∀ r ∈ (generate_recommendations m user_id n true).1,
        ∃ j ∈ m.trainset.all_items, m.trainset.to_raw_iid j = r ∧
          ∀ i ∈ m.trainset.all_items,
            m.trainset.to_raw_iid i ∉ (generate_recommendations m user_id n true).1 →
              (m.trainset.ir i).length ≤ (m.trainset.ir j).length) := by
  have hgen : (generate_recommendations m user_id n true).1
      = ((most_popular m.trainset).take n).map Prod.fst := by
    simp [generate_recommendations, hu]
  refine ⟨by simp [generate_recommendations, hu], by simp [generate_recommendations, hu], ?_⟩
  intro r hr
  rw [hgen] at hr
  obtain ⟨p, hpt, rfl⟩ := List.mem_map.mp hr
  have hpmp : p ∈ most_popular m.trainset := List.mem_of_mem_take hpt
  have hpd : p ∈ item_popularity m.trainset :=
    (most_popular_perm m.trainset).mem_iff.mp hpmp
  obtain ⟨j, hj, hjr, hjv⟩ := item_popularity_pairs m.trainset p hpd
  refine ⟨j, hj, hjr, ?_⟩
  intro i hi hni
  have hkey : m.trainset.to_raw_iid i ∈ (item_popularity m.trainset).map Prod.fst :=
    item_popularity_keys_mem m.trainset hi
  obtain ⟨q, hq, hq1⟩ := List.mem_map.mp hkey
  obtain ⟨i2, hi2, hi2r, hi2v⟩ := item_popularity_pairs m.trainset q hq
  have hii : i2 = i := hinj i2 hi2 i hi (by rw [hi2r, hq1])
  have hqv : q.2 = (m.trainset.ir i).length := by rw [hi2v, hii]
  have hqmp : q ∈ most_popular m.trainset :=
    (most_popular_perm m.trainset).mem_iff.mpr hq
  have hqd : q ∈ (most_popular m.trainset).drop n := by
    have hsplit := List.take_append_drop n (most_popular m.trainset)
    rcases List.mem_append.mp (hsplit ▸ hqmp) with h | h
    · exact absurd (hgen ▸ (hq1 ▸ List.mem_map_of_mem Prod.fst h)) hni
    · exact h
  have hle := pairwise_take_drop (most_popular_pairwise m.trainset) n p hpt q hqd
  rw [hqv, hjv] at hle
  exact hle

/-- Witness for C2 at the concrete model: unknown user 999, count 2. -/
theorem C2_unknown_user_popularity_witness :
    (generate_recommendations mTest (.vint 999) 2 true).2 = false
    ∧ generate_recommendations mTest (.vint 999) 2 true
        = generate_recommendations mTest (.vint 999) 2 false
    ∧ (∀ r ∈ (generate_recommendations mTest (.vint 999) 2 true).1,
        ∃ j ∈ mTest.trainset.all_items, mTest.trainset.to_raw_iid j = r ∧
          ∀ i ∈ mTest.trainset.all_items,
            mTest.trainset.to_raw_iid i ∉ (generate_recommendations mTest (.vint 999) 2 true).1 →
              (mTest.trainset.ir i).length ≤ (mTest.trainset.ir j).length) :=
  C2_unknown_user_popularity mTest (.vint 999) 2 (by decide) (by decide)

/-- C3: for every request the returned list has length at most the requested
count and at most the size of the eligible candidate pool, and contains no
duplicate item identifiers (assuming distinct enumeration and injective
raw/inner translation, as in a surprise trainset). -/
theorem C3_length_bound_nodup (m : Model) (user_id : PyUserVal) (n : Nat)
    (excl : Bool) (hnd : m.trainset.all_items.Nodup)
    (hinj : ∀ i ∈ m.trainset.all_items, ∀ j ∈ m.trainset.all_items,
      m.trainset.to_raw_iid i = m.trainset.to_raw_iid j → i = j) :
    (generate_recommendations m user_id n excl).1.length ≤ n
    ∧ (generate_recommendations m user_id n excl).1.length
        ≤ (eligible_pool m user_id excl).length
    ∧ (generate_recommendations m user_id n excl).1.Nodup := by
  cases hcase : m.trainset.to_inner_uid user_id with
  | some iu =>
      have hgen : (generate_recommendations m user_id n excl).1
          = ((ranked_known m user_id iu excl).take n).map Prod.fst := by
        simp [generate_recommendations, hcase]
      have hpool : eligible_pool m user_id excl = candidate_items m.trainset iu excl := by
        simp [eligible_pool, hcase]
      have hlen : (ranked_known m user_id iu excl).length
          = (candidate_items m.trainset iu excl).length := by
        rw [(ranked_known_perm m user_id iu excl).length_eq]
        simp [predictions]
      have hfst : ((ranked_known m user_id iu excl).map Prod.fst).Perm
          (candidate_items m.trainset iu excl) := by
        have h := (ranked_known_perm m user_id iu excl).map Prod.fst
        rwa [map_fst_predictions] at h
      refine ⟨?_, ?_, ?_⟩
      · rw [hgen, List.length_map, List.length_take]
        exact Nat.min_le_left _ _
      · rw [hgen, hpool, List.length_map, List.length_take, ← hlen]
        exact Nat.min_le_right _ _
      · rw [hgen, List.map_take]
        refine List.Nodup.sublist (List.take_sublist _ _) ?_
        exact hfst.nodup_iff.mpr (candidate_items_nodup iu excl hnd hinj)
  | none =>
      have hgen : (generate_recommendations m user_id n excl).1
          = ((most_popular m.trainset).take n).map Prod.fst := by
        simp [generate_recommendations, hcase]
      have hpool : eligible_pool m user_id excl
          = (item_popularity m.trainset).map Prod.fst := by
        simp [eligible_pool, hcase]
      have hlen : (most_popular m.trainset).length
          = (item_popularity m.trainset).length :=
        (most_popular_perm m.trainset).length_eq
      have hfst : ((most_popular m.trainset).map Prod.fst).Perm
          ((item_popularity m.trainset).map Prod.fst) :=
        (most_popular_perm m.trainset).map Prod.fst
      refine ⟨?_, ?_, ?_⟩
      · rw [hgen, List.length_map, List.length_take]
        exact Nat.min_le_left _ _
      · rw [hgen, hpool, List.length_map, List.length_take, List.length_map, ← hlen]
        exact Nat.min_le_right _ _
      · rw [hgen, List.map_take]
        refine List.Nodup.sublist (List.take_sublist _ _) ?_
        exact hfst.nodup_iff.mpr (item_popularity_keys_nodup m.trainset)

/-- Witness for C3 at the concrete model: known user 1, count 1,
`exclude_seen = false`. -/
theorem C3_length_bound_nodup_witness :
    (generate_recommendations mTest (.vint 1) 1 false).1.length ≤ 1
    ∧ (generate_recommendations mTest (.vint 1) 1 false).1.length
        ≤ (eligible_pool mTest (.vint 1) false).length
    ∧ (generate_recommendations mTest (.vint 1) 1 false).1.Nodup :=
  C3_length_bound_nodup mTest (.vint 1) 1 false (by decide) (by decide)

/-- C4: both rankings are sorted by score descending, and the sort is stable:
two scored candidates in enumeration order whose scores are already
non-ascending (in particular, equal) keep that order in the ranking. -/
theorem C4_descending_stable (m : Model) (user_id : PyUserVal) (iu : Nat)
    (excl : Bool) :
    (ranked_known m user_id iu excl).Pairwise (fun a b => b.2 ≤ a.2)
    ∧ (∀ p q : Nat × Rat, [p, q].Sublist (predictions m user_id iu excl) →
        q.2 ≤ p.2 → [p, q].Sublist (ranked_known m user_id iu excl))
    ∧ (most_popular m.trainset).Pairwise (fun a b => b.2 ≤ a.2)
    ∧ (∀ p q : Nat × Nat, [p, q].Sublist (item_popularity m.trainset) →
        q.2 ≤ p.2 → [p, q].Sublist (most_popular m.trainset)) := by
  refine ⟨ranked_known_pairwise m user_id iu excl, ?_,
    most_popular_pairwise m.trainset, ?_⟩
  · intro p q hsub hle
    refine List.sublist_mergeSort descRat_trans descRat_total ?_ hsub
    simp [List.pairwise_cons, descRat, hle]
  · intro p q hsub hle
    refine List.sublist_mergeSort descNat_trans descNat_total ?_ hsub
    simp [List.pairwise_cons, descNat, hle]

/-- C7: the recommender is a pure, deterministic function — two calls with
identical user, count, exclude flag against the same model state produce
identical results (the embedding is stateless, mirroring the code, which
never assigns into the model). -/
theorem C7_deterministic (m1 m2 : Model) (u1 u2 : PyUserVal) (n1 n2 : Nat)
    (e1 e2 : Bool) (hm : m1 = m2) (hu : u1 = u2) (hn : n1 = n2) (he : e1 = e2) :
    generate_recommendations m1 u1 n1 e1 = generate_recommendations m2 u2 n2 e2 := by
  rw [hm, hu, hn, he]

/-- Witness for C7 at the concrete model. -/
theorem C7_deterministic_witness :
    generate_recommendations mTest (.vint 1) 2 true
      = generate_recommendations mTest (.vint 1) 2 true :=
  C7_deterministic mTest mTest (.vint 1) (.vint 1) 2 2 true true rfl rfl rfl rfl

/-- C8: every request to `/health` gets HTTP 200 with the fixed healthy JSON
body, for any model load state. -/
theorem C8_health_always_200 (model : Option Model) (req : HttpRequest) :
    app_route model .health req
      = { status_code := 200,
          body := .health "healthy" "Recommendation service is running"
            "Azure Function + Blob Storage Input Binding" } := rfl

/-- C5 (amended): with the model loaded, the response is the 400
missing-user_id error exactly when parameter extraction succeeds and the
extracted `user_id` is falsy (absent everywhere, empty string, or the
integer 0); with the model unloaded every request gets the 500 error with
the same JSON shape. -/
theorem C5_amended_error_statuses (m : Model) (req : HttpRequest) :
    (recommendation_function (some m) req
        = create_error_response "user_id manquant" "Veuillez fournir un user_id" 400
      ↔ ∃ u n e, extract_request_params req = .ok (u, n, e) ∧ pyTruthy u = false)
    ∧ recommendation_function none req
        = create_error_response "Modele non charge"
            "Le modele n'a pas pu etre initialise au demarrage" 500 := by
  refine ⟨?_, rfl⟩
  cases hex : extract_request_params req with
  | error e =>
      constructor
      · intro h
        rw [recommendation_function] at h
        simp only [hex] at h
        have := congrArg HttpResponse.status_code h
        simp [create_error_response] at this
      · rintro ⟨u, n, e', heq, -⟩
        simp at heq
  | ok t =>
      obtain ⟨u, n, e⟩ := t
      by_cases hu : pyTruthy u
      · constructor
        · intro h
          rw [recommendation_function] at h
          simp only [hex, hu] at h
          have := congrArg HttpResponse.status_code h
          simp [create_error_response] at this
        · rintro ⟨u', n', e', heq, hf⟩
          simp only [Except.ok.injEq, Prod.mk.injEq] at heq
          obtain ⟨h1, -, -⟩ := heq
          rw [← h1, hu] at hf
          cases hf
      · constructor
        · intro _
          exact ⟨u, n, e, rfl, by simpa using hu⟩
        · intro _
          rw [recommendation_function]
          simp [hex, hu]

/-- Counterexample to C5 as stated: `user_id` is present in the query (the
string `"0"`), yet with the model loaded the request is answered 400. -/
def reqUserZero : HttpRequest :=
  { param_user_id := some "0", param_num_recommendations := none,
    param_exclude_seen := none, body := .invalid }

/-- C5 counterexample: a request whose query carries `user_id=0` is present,
but still gets HTTP 400. -/
theorem C5_counterexample_user_zero :
    reqUserZero.param_user_id = some "0"
    ∧ (recommendation_function (some mTest) reqUserZero).status_code = 400 := by
  constructor
  · rfl
  · rfl

/-- C9: a non-numeric `num_recommendations` query value makes the `int(...)`
conversion raise inside extraction (before any default or clamp applies), and
with the model loaded the endpoint answers the internal 500 error, not 400
and not a default of 10. -/
theorem C9_nonnumeric_num_is_500 (m : Model) (req : HttpRequest) (s : String)
    (hs : req.param_num_recommendations = some s)
    (hbad : pyIntOfString s = none) :
    extract_request_params req = .error ("invalid literal for int(): " ++ s)
    ∧ recommendation_function (some m) req
        = create_error_response "Erreur interne du moteur de recommandation"
            ("invalid literal for int(): " ++ s) 500 := by
  have hex : extract_request_params req
      = .error ("invalid literal for int(): " ++ s) := by
    rw [extract_request_params]
    simp [hs, hbad]
  refine ⟨hex, ?_⟩
  rw [recommendation_function]
  simp [hex]

/-- Request with a non-numeric `num_recommendations`, for the C9 witness. -/
def reqBadNum : HttpRequest :=
  { param_user_id := some "1", param_num_recommendations := some "abc",
    param_exclude_seen := none, body := .invalid }

/-- Witness for C9 at the concrete model and the literal query value
`num_recommendations=abc`. -/
theorem C9_nonnumeric_num_is_500_witness :
    extract_request_params reqBadNum = .error ("invalid literal for int(): " ++ "abc")
    ∧ recommendation_function (some mTest) reqBadNum
        = create_error_response "Erreur interne du moteur de recommandation"
            ("invalid literal for int(): " ++ "abc") 500 :=
  C9_nonnumeric_num_is_500 mTest reqBadNum "abc" rfl (by decide)

/-- C10 (amended): when `user_id` is present in the query with a non-empty
value, the JSON body is never consulted — the extraction result does not
depend on the body at all, so `num_recommendations` and `exclude_seen` come
from the query string (or their query defaults). -/
theorem C10_amended_query_shields_body (r1 r2 : HttpRequest) (s : String)
    (h : r1.param_user_id = some s) (hs : s ≠ "")
    (hu : r2.param_user_id = r1.param_user_id)
    (hn : r2.param_num_recommendations = r1.param_num_recommendations)
    (he : r2.param_exclude_seen = r1.param_exclude_seen) :
    extract_request_params r1 = extract_request_params r2 := by
  have hbeq : (s == "") = false := by
    simp [hs]
  simp only [extract_request_params, queryUserVal, hu, hn, he, h, pyTruthy, hbeq,
    Bool.not_false, if_pos]

/-- First request of the C10 witness: `user_id=5` in the query, no body. -/
def reqQueryA : HttpRequest :=
  { param_user_id := some "5", param_num_recommendations := none,
    param_exclude_seen := none, body := .invalid }

/-- Second request of the C10 witness: same query, but a JSON body that
tries to override everything. -/
def reqQueryB : HttpRequest :=
  { param_user_id := some "5", param_num_recommendations := none,
    param_exclude_seen := none,
    body := .obj { user_id := .vint 7, num_recommendations := some 99,
                   exclude_seen := some false } }

/-- Witness for the amended C10: with `user_id=5` in the query, the body is
ignored. -/
theorem C10_amended_query_shields_body_witness :
    extract_request_params reqQueryA = extract_request_params reqQueryB :=
  C10_amended_query_shields_body reqQueryA reqQueryB "5" rfl (by decide) rfl rfl rfl

/-- Request for the C10 counterexample: `user_id` present in the query but
with the empty value, and a JSON body supplying different parameters. -/
def reqEmptyUser : HttpRequest :=
  { param_user_id := some "", param_num_recommendations := none,
    param_exclude_seen := none,
    body := .obj { user_id := .vint 7, num_recommendations := some 99,
                   exclude_seen := some false } }

/-- Same request without the body. -/
def reqEmptyUserNoBody : HttpRequest :=
  { param_user_id := some "", param_num_recommendations := none,
    param_exclude_seen := none, body := .invalid }

/-- C10 counterexample: `user_id` is present as a query parameter (with the
empty value), yet the JSON body is consulted and its values are used. -/
theorem C10_counterexample_empty_user :
    reqEmptyUser.param_user_id = some ""
    ∧ extract_request_params reqEmptyUser = .ok (.vint 7, 99, false)
    ∧ extract_request_params reqEmptyUserNoBody = .ok (.vstr "", 10, true) :=
  ⟨rfl, rfl, rfl⟩

/-- When the query `user_id` is truthy, or the body is unusable (raise or
falsy), extraction keeps the query-string parameters. -/
theorem extract_query_path (req : HttpRequest) (num0 : Int)
    (hnum : (match req.param_num_recommendations with
             | some s => pyIntOfString s
             | none => some 10) = some num0)
    (hkeep : pyTruthy (queryUserVal req) = true
      ∨ req.body = .invalid ∨ req.body = .falsy) :
    extract_request_params req
      = .ok (intCoerce (queryUserVal req), max 1 (min num0 100),
          (pyLower (req.param_exclude_seen.getD "true") == "true")) := by
  rw [extract_request_params]
  cases hpn : req.param_num_recommendations with
  | none =>
      rw [hpn] at hnum
      simp only [Option.some.injEq] at hnum
      subst hnum
      rcases hkeep with hq | hb | hb
      · simp [hq, Pure.pure, Except.pure, Bind.bind, Except.bind]
      · by_cases hq : pyTruthy (queryUserVal req) <;> simp [hq, hb, Pure.pure, Except.pure, Bind.bind, Except.bind]
      · by_cases hq : pyTruthy (queryUserVal req) <;> simp [hq, hb, Pure.pure, Except.pure, Bind.bind, Except.bind]
  | some s =>
      rw [hpn] at hnum
      have hnum2 : pyIntOfString s = some num0 := hnum
      rcases hkeep with hq | hb | hb
      · simp [hnum2, hq, Pure.pure, Except.pure, Bind.bind, Except.bind]
      · by_cases hq : pyTruthy (queryUserVal req) <;> simp [hnum2, hq, hb, Pure.pure, Except.pure, Bind.bind, Except.bind]
      · by_cases hq : pyTruthy (queryUserVal req) <;> simp [hnum2, hq, hb, Pure.pure, Except.pure, Bind.bind, Except.bind]

/-- When the query `user_id` is falsy and the body is a nonempty dict,
extraction takes all three parameters from the body (after the query's
`num_recommendations` has already been converted without error). -/
theorem extract_body_path (req : HttpRequest) (b : ReqBody) (num0 : Int)
    (hnum : (match req.param_num_recommendations with
             | some s => pyIntOfString s
             | none => some 10) = some num0)
    (hq : pyTruthy (queryUserVal req) = false) (hb : req.body = .obj b) :
    extract_request_params req
      = .ok (intCoerce b.user_id,
          max 1 (min (b.num_recommendations.getD 10) 100),
          b.exclude_seen.getD true) := by
  rw [extract_request_params]
  cases hpn : req.param_num_recommendations with
  | none => simp [hq, hb, Pure.pure, Except.pure, Bind.bind, Except.bind]
  | some s =>
      rw [hpn] at hnum
      have hnum2 : pyIntOfString s = some num0 := hnum
      simp [hnum2, hq, hb, Pure.pure, Except.pure, Bind.bind, Except.bind]

/-- C6 (amended): extraction returns `num_recommendations = 10` when the
parameter is absent from the consulted source, and the clamp of a supplied
integer `n` into `[1, 100]` — the consulted source being the query string
when the query `user_id` is truthy or the body is unusable, and the JSON
body otherwise (a query-supplied value is discarded in the latter case). -/
theorem C6_amended_num_default_clamp (req : HttpRequest) :
    ((req.param_num_recommendations = none ∧ bodyConsulted req = false) →
        ∃ u e, extract_request_params req = .ok (u, 10, e))
    ∧ (∀ s nv, req.param_num_recommendations = some s → pyIntOfString s = some nv →
        bodyConsulted req = false →
          ∃ u e, extract_request_params req = .ok (u, max 1 (min nv 100), e))
    ∧ (∀ b, req.body = .obj b → pyTruthy (queryUserVal req) = false →
        (req.param_num_recommendations = none ∨
          ∃ s nv, req.param_num_recommendations = some s ∧ pyIntOfString s = some nv) →
          ∃ u e, extract_request_params req
            = .ok (u, max 1 (min (b.num_recommendations.getD 10) 100), e)) := by
  have hkeep_of : bodyConsulted req = false →
      pyTruthy (queryUserVal req) = true ∨ req.body = .invalid ∨ req.body = .falsy := by
    intro hb
    by_cases hq : pyTruthy (queryUserVal req)
    · exact Or.inl hq
    · cases hcb : req.body with
      | invalid => exact Or.inr (Or.inl rfl)
      | falsy => exact Or.inr (Or.inr rfl)
      | obj b =>
          exfalso
          rw [bodyConsulted, hcb] at hb
          simp [hq] at hb
  refine ⟨?_, ?_, ?_⟩
  · rintro ⟨hn, hb⟩
    have hq := extract_query_path req 10 (by rw [hn]) (hkeep_of hb)
    have h10 : max (1 : Int) (min 10 100) = 10 := by norm_num
    rw [h10] at hq
    exact ⟨_, _, hq⟩
  · intro s nv hs hparse hb
    have hq := extract_query_path req nv (by rw [hs]; exact hparse) (hkeep_of hb)
    exact ⟨_, _, hq⟩
  · intro b hb hqf hnum
    rcases hnum with hn | ⟨s, nv, hs, hparse⟩
    · exact ⟨_, _, extract_body_path req b 10 (by rw [hn]) hqf hb⟩
    · exact ⟨_, _, extract_body_path req b nv (by rw [hs]; exact hparse) hqf hb⟩

/-- Request for the C6 witness: `user_id=7` and `num_recommendations=50`
in the query, no body. -/
def reqNumFifty : HttpRequest :=
  { param_user_id := some "7", param_num_recommendations := some "50",
    param_exclude_seen := none, body := .invalid }

/-- Witness for the amended C6: a query-supplied 50 is clamped (to itself)
and returned. -/
theorem C6_amended_num_default_clamp_witness :
    ∃ u e, extract_request_params reqNumFifty
      = .ok (u, max 1 (min 50 100), e) :=
  (C6_amended_num_default_clamp reqNumFifty).2.1 "50" 50 rfl rfl rfl

/-- Request for the C6 counterexample: `num_recommendations=50` supplied in
the query, `user_id` only in the JSON body. -/
def reqNumDiscarded : HttpRequest :=
  { param_user_id := none, param_num_recommendations := some "50",
    param_exclude_seen := none,
    body := .obj { user_id := .vint 5, num_recommendations := none,
                   exclude_seen := none } }

/-- C6 counterexample: the integer 50 is supplied for `num_recommendations`
(in the query), yet extraction returns 10, not the clamp of 50 — the body
fallback discards the query value. -/
theorem C6_counterexample_query_num_discarded :
    reqNumDiscarded.param_num_recommendations = some "50"
    ∧ pyIntOfString "50" = some 50
    ∧ extract_request_params reqNumDiscarded = .ok (.vint 5, 10, true) :=
  ⟨rfl, rfl, rfl⟩

/-- Witness for C4 at the concrete model: user 1's personalized ranking and
the popularity ranking. -/
theorem C4_descending_stable_witness :
    (ranked_known mTest (.vint 1) 0 true).Pairwise (fun a b => b.2 ≤ a.2)
    ∧ (∀ p q : Nat × Rat, [p, q].Sublist (predictions mTest (.vint 1) 0 true) →
        q.2 ≤ p.2 → [p, q].Sublist (ranked_known mTest (.vint 1) 0 true))
    ∧ (most_popular mTest.trainset).Pairwise (fun a b => b.2 ≤ a.2)
    ∧ (∀ p q : Nat × Nat, [p, q].Sublist (item_popularity mTest.trainset) →
        q.2 ≤ p.2 → [p, q].Sublist (most_popular mTest.trainset)) :=
  C4_descending_stable mTest (.vint 1) 0 true

/-- Witness for the amended C5 at the concrete model and a concrete
request. -/
theorem C5_amended_error_statuses_witness :
    (recommendation_function (some mTest) reqQueryA
        = create_error_response "user_id manquant" "Veuillez fournir un user_id" 400
      ↔ ∃ u n e, extract_request_params reqQueryA = .ok (u, n, e) ∧ pyTruthy u = false)
    ∧ recommendation_function none reqQueryA
        = create_error_response "Modele non charge"
            "Le modele n'a pas pu etre initialise au demarrage" 500 :=
  C5_amended_error_statuses mTest reqQueryA
